import Mathlib

/-!
Shallow embedding of the ai-digest scoring → categorization → selection
pipeline, translated from the Python sources:
  * `src/src/analyze_articles.py`  (namespace `AA`)
  * `analyze_today.py`             (namespace `Today`)
  * `filter_and_generate.py`       (namespace `FG`)
  * `src/src/collect_articles.py`  (namespace `Collect`)
Machine integers are modelled as `Int`/`Nat`; the single floating-point
multiplication (`score * 0.3` in analyze_articles.py) forces the score of
that variant into `ℚ`, with `0.3` taken as the exact rational `3/10`
(at the one concrete input examined here the Python float product is
exactly `4.5`, the same value).  Python dictionary access
`article.get(k, default)` is modelled with `Option.getD` where a fallback
chain exists and with a plain field (absent ↦ `""`) otherwise.
-/

/-- Python `s.lower()` (ASCII case folding of `Char.toLower` suffices for the
keyword vocabularies, which are all ASCII). -/
def pyLower (s : String) : String := String.mk (s.toList.map Char.toLower)

/-- Does `pat` occur as a contiguous sublist of the second argument?
Executable substring search by structural recursion. -/
def containsAux (pat : List Char) : List Char → Bool
  | [] => pat.isEmpty
  | c :: rest => pat.isPrefixOf (c :: rest) || containsAux pat rest

/-- Python `pat in s` on strings: substring containment. -/
def containsStr (s pat : String) : Bool := containsAux pat.toList s.toList

/-- A canonical article record as produced by the collector
(`collect_articles.py`), the input shape of all three analysis variants.
`summary` and `link` are `Option` because `analyze_articles.py` reads them
with the fallback chains `get('summary', get('description',''))` and
`get('link', get('url',''))`; the other fields default to `""`/`[]` when
absent, matching `get(k, '')`. -/
structure Article where
  title : String := ""
  description : String := ""
  summary : Option String := none
  url : String := ""
  link : Option String := none
  published : String := ""
  source : String := ""
  author : String := ""
  tags : List String := []
  deriving Repr, DecidableEq

/-- Records of the `item['score'] >= ...` style used by the selection walks: an
article annotated with its score and category. -/
structure Scored (β : Type) where
  article : Article
  score : β
  category : String
  deriving Repr, DecidableEq

/-- Insert `x` into a descending-sorted list, after every element whose key is
strictly greater and before the first whose key is `≤ key x`; used to model
Python's stable sort. -/
def insertDesc {α β : Type} [LinearOrder β] (key : α → β) (x : α) :
    List α → List α
  | [] => [x]
  | y :: ys => if key x < key y then y :: insertDesc key x ys else x :: y :: ys

/-- Stable descending sort by a key: Python
`list.sort(key=lambda x: x[key], reverse=True)`.  A stable sort's output is
uniquely determined by its input (it is the permutation that is sorted by the
key and keeps equal-key elements in input order), so this structurally
recursive stable insertion sort is extensionally the CPython Timsort call;
sortedness, permutation and stability are proved below
(`sorted_sortByKeyDesc`, `perm_sortByKeyDesc`, `filter_key_sortByKeyDesc`). -/
def sortByKeyDesc {α β : Type} [LinearOrder β] (key : α → β) : List α → List α
  | [] => []
  | x :: xs => insertDesc key x (sortByKeyDesc key xs)

/-- The shared shape of the three selection walks
(`analyze_today.py` lines 103–117, `filter_and_generate.py` lines 151–166,
`analyze_articles.py` lines 157–177): walk the sorted list, `break` once
`maxSel` items are selected (when a `maxSel` exists), `continue` past a
preprint once `maxArxiv` preprints are selected.  `selCount`/`arxivCount`
carry `len(selected)` and `arxiv_count`. -/
def selectWalk {α : Type} (isPre : α → Bool) (maxSel : Option Nat)
    (maxArxiv : Nat) (selCount arxivCount : Nat) : List α → List α
  | [] => []
  | item :: rest =>
    if (maxSel.map (fun m => decide (m ≤ selCount))).getD false then []
    else if isPre item then
      if maxArxiv ≤ arxivCount then
        selectWalk isPre maxSel maxArxiv selCount arxivCount rest
      else
        item :: selectWalk isPre maxSel maxArxiv (selCount + 1)
          (arxivCount + 1) rest
    else
      item :: selectWalk isPre maxSel maxArxiv (selCount + 1) arxivCount rest

namespace Today

/-! ## analyze_today.py -/

def agentic_keywords : List String :=
  ["agent", "agentic", "autonomous", "multi-agent", "tool use",
   "function calling", "mcp", "model context protocol",
   "reasoning", "planning", "workflow", "orchestration",
   "tool calling", "langchain", "langgraph", "crewai"]

def production_keywords : List String :=
  ["production", "deployment", "real-world", "implementation",
   "case study", "benchmark", "framework", "sdk", "api",
   "system", "platform", "enterprise", "scale"]

def ai_keywords : List String :=
  ["llm", "large language", "ai", "gpt", "claude", "gemini"]

def dev_keywords : List String := ["developer", "code", "programming", "engineering"]

def theory_keywords : List String := ["theoretical", "mathematical proof", "convergence"]

/-- Python `combined = f"{title} {description}"` over the lowercased fields. -/
def combined (a : Article) : String :=
  pyLower a.title ++ " " ++ pyLower a.description

/-- Number of agentic keywords occurring in `combined`
(`analyze_today.py` line 28). -/
def agentic_matches (a : Article) : Nat :=
  agentic_keywords.countP (fun kw => containsStr (combined a) kw)

/-- Function `score_article` of `analyze_today.py` (lines 12–57). -/
def score_article (a : Article) : Int :=
  let url := pyLower a.url
  let c := combined a
  let score : Int := 0
  let score := score + min 40 ((agentic_matches a : Int) * 15)
  let score := if production_keywords.any (fun kw => containsStr c kw) then
    score + 25 else score
  let score := if ai_keywords.any (fun kw => containsStr c kw) then
    score + 20 else score
  let score := if dev_keywords.any (fun kw => containsStr c kw) then
    score + 10 else score
  let score := if !containsStr url ("arxiv.org") then score + 10 else score
  let score := if containsStr url ("arxiv.org") &&
      theory_keywords.any (fun kw => containsStr c kw) then
    score - 15 else score
  max 0 (min 100 score)

def production_indicators : List String :=
  ["production", "deployment", "real-world", "case study"]

def framework_indicators : List String := ["framework", "sdk", "tool", "library", "api"]

def resource_indicators : List String := ["tutorial", "guide", "how to", "example"]

def analysis_indicators : List String := ["trend", "analysis", "survey", "benchmark"]

/-- Does any production indicator occur (first categorizer rule of
analyze_today.py, line 66)? -/
def production_indicator_match (a : Article) : Bool :=
  production_indicators.any (fun kw => containsStr (combined a) kw)

/-- Does any framework indicator occur (second categorizer rule, line 68)? -/
def framework_indicator_match (a : Article) : Bool :=
  framework_indicators.any (fun kw => containsStr (combined a) kw)

/-- Function `categorize_article` of analyze_today.py (lines 60–74): note
that this variant never consults the URL. -/
def categorize_article (a : Article) : String :=
  let c := combined a
  if production_indicator_match a then
    "Production Use Cases"
  else if framework_indicator_match a then
    "Frameworks & Tools"
  else if resource_indicators.any (fun kw => containsStr c kw) then
    "Developer Resources"
  else if analysis_indicators.any (fun kw => containsStr c kw) then
    "Trends & Analysis"
  else "Research & Breakthroughs"

/-- Function `main` of `analyze_today.py`, lines 86–117: score, keep `score >= 60`,
stable-sort descending, then select at most 12 with at most 3 arXiv
articles.  The selection walk reads the raw (uncased) `url`. -/
def main_select (articles : List Article) : List (Scored Int) :=
  let scored := articles.filterMap (fun a =>
    let s := score_article a
    if 60 ≤ s then some ⟨a, s, categorize_article a⟩ else none)
  let sorted := sortByKeyDesc (fun x : Scored Int => x.score) scored
  selectWalk (fun x => containsStr x.article.url ("arxiv.org")) (some 12) 3 0 0 sorted

end Today

namespace FG

/-! ## filter_and_generate.py -/

def high_value : List String :=
  ["agent", "agentic", "autonomous", "multi-agent", "tool use",
   "function calling", "mcp", "model context protocol",
   "reasoning", "planning", "workflow", "orchestration"]

def production_keywords : List String :=
  ["production", "deployment", "real-world", "implementation",
   "case study", "benchmark", "framework", "sdk", "api",
   "tool", "application", "system", "platform"]

def ai_keywords : List String :=
  ["llm", "large language model", "gpt", "claude", "gemini",
   "ai", "artificial intelligence", "neural", "transformer"]

def dev_keywords : List String :=
  ["developer", "coding", "programming", "software", "engineering", "code", "github"]

def theory_only : List String :=
  ["theoretical", "mathematical proof", "convergence analysis",
   "formal verification", "complexity bounds"]

def breakthrough_keywords : List String :=
  ["breakthrough", "novel", "first", "new benchmark",
   "state-of-the-art", "sota", "outperforms"]

def combined (a : Article) : String :=
  pyLower a.title ++ " " ++ pyLower a.description

/-- Does any high-value (agentic) keyword occur
(`filter_and_generate.py` lines 32–35)? -/
def high_value_match (a : Article) : Bool :=
  high_value.any (fun kw => containsStr (combined a) kw)

/-- Function `score_article` of `filter_and_generate.py` (lines 14–90): each keyword
group contributes a flat bonus on first match (the Python loops `break`). -/
def score_article (a : Article) : Int :=
  let url := pyLower a.url
  let c := combined a
  let score : Int := 0
  let score := if high_value_match a then score + 20 else score
  let score := if production_keywords.any (fun kw => containsStr c kw) then
    score + 15 else score
  let score := if ai_keywords.any (fun kw => containsStr c kw) then
    score + 20 else score
  let score := if dev_keywords.any (fun kw => containsStr c kw) then
    score + 10 else score
  let score := if !containsStr url ("arxiv.org") then score + 10 else score
  let score := if containsStr url ("arxiv.org") &&
      theory_only.any (fun kw => containsStr c kw) then
    score - 20 else score
  let score := if containsStr url ("arxiv.org") &&
      breakthrough_keywords.any (fun kw => containsStr c kw) then
    score + 15 else score
  max 0 (min 100 score)

def production_indicators : List String :=
  ["production", "deployment", "real-world", "case study", "implementation"]

def framework_indicators : List String :=
  ["framework", "sdk", "tool", "library", "api", "platform"]

def resource_indicators : List String :=
  ["tutorial", "guide", "how to", "documentation", "example"]

def analysis_indicators : List String :=
  ["trend", "analysis", "survey", "benchmark", "evaluation"]

/-- Does any production indicator occur (first categorizer rule of
filter_and_generate.py, line 101)? -/
def production_indicator_match (a : Article) : Bool :=
  production_indicators.any (fun kw => containsStr (combined a) kw)

/-- Does any framework indicator occur (second categorizer rule, line 104)? -/
def framework_indicator_match (a : Article) : Bool :=
  framework_indicators.any (fun kw => containsStr (combined a) kw)

/-- Function `categorize_article` of filter_and_generate.py (lines 93–114):
the lowercased `url` is computed by the Python function but never consulted
by any rule. -/
def categorize_article (a : Article) : String :=
  let c := combined a
  if production_indicator_match a then
    "Production Use Cases"
  else if framework_indicator_match a then
    "Frameworks & Tools"
  else if resource_indicators.any (fun kw => containsStr c kw) then
    "Developer Resources"
  else if analysis_indicators.any (fun kw => containsStr c kw) then
    "Trends & Analysis"
  else "Research & Breakthroughs"

/-- Function `main` of `filter_and_generate.py`, lines 136–166: keep `score >= 60`,
stable-sort descending, select at most 15 with at most 3 arXiv articles
(raw `url` consulted by the walk). -/
def main_select (articles : List Article) : List (Scored Int) :=
  let scored := articles.filterMap (fun a =>
    let s := score_article a
    if 60 ≤ s then some ⟨a, s, categorize_article a⟩ else none)
  let sorted := sortByKeyDesc (fun x : Scored Int => x.score) scored
  selectWalk (fun x => containsStr x.article.url ("arxiv.org")) (some 15) 3 0 0 sorted

end FG

namespace AA

/-! ## src/src/analyze_articles.py -/

def production_keywords : List String :=
  ["production", "deployment", "case study", "real-world", "enterprise",
   "customer", "implementation", "using", "how to", "practical",
   "langsmith", "langgraph", "servicenow", "company"]

def agent_keywords : List String :=
  ["agent", "agentic", "autonomous", "tool use", "tool calling",
   "mcp", "model context protocol", "multi-agent", "orchestration",
   "reasoning", "planning", "workflow"]

def framework_keywords : List String :=
  ["framework", "library", "sdk", "api", "tool", "platform",
   "langchain", "autogen", "crewai", "anthropic", "openai"]

/-- Python `article.get('summary', article.get('description', ''))`, lowercased. -/
def summaryText (a : Article) : String := pyLower (a.summary.getD a.description)

/-- Python `article.get('link', article.get('url', ''))` — note: not lowercased in
this variant. -/
def linkOf (a : Article) : String := a.link.getD a.url

/-- Python `content = f"{title} {summary}"`. -/
def content (a : Article) : String := pyLower a.title ++ " " ++ summaryText a

/-- Python `'arxiv.org' in link` (`analyze_articles.py` line 45). -/
def is_arxiv (a : Article) : Bool := containsStr (linkOf a) ("arxiv.org")

def agent_matches (a : Article) : Nat :=
  agent_keywords.countP (fun kw => containsStr (content a) kw)

def production_matches (a : Article) : Nat :=
  production_keywords.countP (fun kw => containsStr (content a) kw)

def framework_matches (a : Article) : Nat :=
  framework_keywords.countP (fun kw => containsStr (content a) kw)

/-- Function `score_article` of `analyze_articles.py` (lines 27–99), returning
`(score, reason)`.  The score lives in `ℚ` because the arXiv penalty
`score * 0.3` is a Python float multiplication; `0.3` is modelled as the
exact rational `3/10`. -/
def score_article (a : Article) : ℚ × String :=
  if agent_matches a = 0 then (0, "Not relevant to AI agents")
  else
    let score : ℚ := 0
    let reasons : List String := []
    let score := score + min ((agent_matches a : ℚ) * 15) 40
    let reasons := reasons ++
      ["agent keywords (" ++ toString (agent_matches a) ++ ")"]
    let score := if 0 < production_matches a then
      score + min ((production_matches a : ℚ) * 20) 50 else score
    let reasons := if 0 < production_matches a then
      reasons ++ ["production focus (" ++ toString (production_matches a) ++ ")"]
      else reasons
    let score := if 0 < framework_matches a then
      score + min ((framework_matches a : ℚ) * 10) 30 else score
    let reasons := if 0 < framework_matches a then
      reasons ++ ["framework/tool (" ++ toString (framework_matches a) ++ ")"]
      else reasons
    let score := if is_arxiv a && production_matches a == 0 then
      min (score * (3 / 10)) 40 else score
    let reasons := if is_arxiv a then
      (if production_matches a == 0 then reasons ++ ["arXiv penalty (research paper)"]
       else reasons ++ ["arXiv with production relevance"]) else reasons
    (min score 100, String.intercalate ("; ") reasons)

def production_indicators : List String :=
  ["production", "deployment", "case study", "customer", "enterprise",
   "real-world", "implementation"]

def framework_indicators : List String :=
  ["framework", "library", "sdk", "api", "tool", "release", "version"]

def resource_indicators : List String :=
  ["guide", "tutorial", "how to", "documentation", "learning"]

def analysis_indicators : List String :=
  ["trend", "analysis", "survey", "benchmark", "comparison", "review"]

/-- Does any production indicator occur (`analyze_articles.py` line 116)? -/
def production_indicator_match (a : Article) : Bool :=
  production_indicators.any (fun kw => containsStr (content a) kw)

/-- Does any framework indicator occur (`analyze_articles.py` line 118)? -/
def framework_indicator_match (a : Article) : Bool :=
  framework_indicators.any (fun kw => containsStr (content a) kw)

/-- Function `categorize_article` of `analyze_articles.py` (lines 101–125).  The
`score` argument is accepted but unused, as in the source; the
frameworks/tools rule excludes arXiv-linked articles. -/
def categorize_article (a : Article) (score : ℚ) : String :=
  let c := content a
  if production_indicator_match a then
    "Production Use Cases"
  else if framework_indicator_match a && !is_arxiv a then
    "Frameworks & Tools"
  else if resource_indicators.any (fun kw => containsStr c kw) then
    "Developer Resources"
  else if analysis_indicators.any (fun kw => containsStr c kw) then
    "Trends & Analysis"
  else "Research & Breakthroughs"

/-- Python `published.replace('Z', '+00:00')`: the pattern is the single character
`Z`, so the replacement is a per-character expansion. -/
def replaceZ (s : String) : String :=
  String.mk ((s.toList.map
    (fun c => if c = 'Z' then ("+00:00".toList) else [c])).join)

/-- Numeric value of two decimal digit characters. -/
def dd (c1 c2 : Char) : Nat := (c1.toNat - 48) * 10 + (c2.toNat - 48)

/-- Pack a date-time into one `Nat` whose numeric order is the
lexicographic order of the components (each component fits its two/four
decimal slots). -/
def encDT (y mo d h mi s : Nat) : Nat :=
  y * 10000000000 + mo * 100000000 + d * 1000000 + h * 10000 + mi * 100 + s

/-- Trailing UTC-offset syntax accepted by `datetime.fromisoformat`
after the seconds: nothing, or `±HH:MM`. -/
def offsetOk : List Char → Bool
  | [] => true
  | [sg, a1, a2, ':', b1, b2] =>
    (sg = '+' || sg = '-') && [a1, a2, b1, b2].all Char.isDigit
  | _ => false

/-- Time syntax `HH:MM:SS` plus optional offset. -/
def parseTime? : List Char → Option (Nat × Nat × Nat)
  | h1 :: h2 :: ':' :: m1 :: m2 :: ':' :: s1 :: s2 :: rest =>
    if [h1, h2, m1, m2, s1, s2].all Char.isDigit && offsetOk rest &&
        dd h1 h2 ≤ 23 && dd m1 m2 ≤ 59 && dd s1 s2 ≤ 59 then
      some (dd h1 h2, dd m1 m2, dd s1 s2)
    else none
  | _ => none

/-- Python `datetime.fromisoformat`: strict `YYYY-MM-DD[<sep>HH:MM:SS[±HH:MM]]`
(any single separator character, as in CPython).  Returns the packed
date-time, `none` where CPython raises `ValueError`.  The UTC offset is
validated syntactically but not applied to the instant; no claim settled
here depends on cross-offset comparison. -/
def fromisoformat? (s : String) : Option Nat :=
  match s.toList with
  | y1 :: y2 :: y3 :: y4 :: '-' :: m1 :: m2 :: '-' :: d1 :: d2 :: rest =>
    if [y1, y2, y3, y4, m1, m2, d1, d2].all Char.isDigit &&
        1 ≤ dd m1 m2 && dd m1 m2 ≤ 12 && 1 ≤ dd d1 d2 && dd d1 d2 ≤ 31 then
      let y := dd y1 y2 * 100 + dd y3 y4
      match rest with
      | [] => some (encDT y (dd m1 m2) (dd d1 d2) 0 0 0)
      | _sep :: tl =>
        (parseTime? tl).map (fun t => encDT y (dd m1 m2) (dd d1 d2) t.1 t.2.1 t.2.2)
    else none
  | _ => none

/-- Function `is_recent` of `analyze_articles.py` (lines 18–25).  The source computes
`cutoff = datetime.now(utc) - timedelta(hours=hours)` from the ambient
clock; the model takes that precomputed cutoff as a parameter.  A
`published` string on which `fromisoformat` raises lands in the bare
`except:` and yields `False`. -/
def is_recent (published : String) (cutoff : Nat) : Bool :=
  match fromisoformat? (replaceZ published) with
  | some pub_date => decide (cutoff ≤ pub_date)
  | none => false

/-- Function `main` of `analyze_articles.py`, lines 134–177: recency-filter
(`is_recent`, 48 h window represented by `cutoff`), keep `score >= 60`,
stable-sort descending, then the arXiv-cap walk — this variant has no bound
on the total number selected.  The diagnostic `reason` string is carried in
the source's dict but never read downstream and is not stored here. -/
def main_pipeline (cutoff : Nat) (articles : List Article) : List (Scored ℚ) :=
  let recent := articles.filter (fun a => is_recent a.published cutoff)
  let scored := recent.filterMap (fun a =>
    let s := (score_article a).1
    if 60 ≤ s then some ⟨a, s, categorize_article a s⟩ else none)
  let sorted := sortByKeyDesc (fun x : Scored ℚ => x.score) scored
  selectWalk (fun x => is_arxiv x.article) none 3 0 0 sorted

end AA

namespace Collect

/-! ## src/src/collect_articles.py -/

/-- A raw feed entry at the `feedparser`/`dateutil` boundary.  `pubDate` is
the already-parsed publication instant delivered by those external
libraries (`parse_published_date`, lines 35–63): `none` when no date field
is present or every candidate fails to parse. -/
structure FeedEntry where
  title : String := "No Title"
  link : String := ""
  pubDate : Option Int := none
  summary : String := ""
  deriving Repr, DecidableEq

/-- The record shape written by `fetch_articles` (lines 94–104), restricted
to the fields the date logic determines. -/
structure CollectedArticle where
  title : String
  url : String
  published : String
  date_verified : Bool
  deriving Repr, DecidableEq

/-- The per-entry date logic of `fetch_articles` (lines 77–106): a dateless
entry is kept with `published = "Unknown"` and `date_verified = False`; an
entry older than the cutoff is skipped; otherwise it is kept verified
(`pub_date.isoformat()` rendered via `toString`). -/
def entry_to_article (cutoff : Int) (e : FeedEntry) : Option CollectedArticle :=
  match e.pubDate with
  | none =>
    some { title := e.title, url := e.link, published := "Unknown",
           date_verified := false }
  | some d =>
    if d < cutoff then none
    else some { title := e.title, url := e.link, published := toString d,
                date_verified := true }

/-- Function `fetch_articles` restricted to its date filtering. -/
def fetch_articles (cutoff : Int) (entries : List FeedEntry) :
    List CollectedArticle :=
  entries.filterMap (entry_to_article cutoff)

/-- Functions `collect_articles`/`main` of `collect_articles.py` (lines 115–189):
`argparse` accepts any integer for `--hours` (`type=int`, no bounds
check), the cutoff is `now - timedelta(hours=hours)` and collection
proceeds unconditionally — there is no validation branch anywhere in
`main`, `collect_articles` or `fetch_articles`. -/
def collect_articles_run (hours : Int) (now : Int) (entries : List FeedEntry) :
    List CollectedArticle :=
  fetch_articles (now - hours * 3600) entries

end Collect

/-! ## General lemmas: the stable descending sort -/

theorem perm_insertDesc {α β : Type} [LinearOrder β] (key : α → β) (x : α)
    (l : List α) : (insertDesc key x l).Perm (x :: l) := by
  induction l with
  | nil => exact List.Perm.refl _
  | cons y ys ih =>
    unfold insertDesc
    split
    · exact (ih.cons y).trans (List.Perm.swap x y ys)
    · exact List.Perm.refl _

theorem sorted_insertDesc {α β : Type} [LinearOrder β] (key : α → β) (x : α)
    (l : List α) (h : l.Pairwise (fun a b => key b ≤ key a)) :
    (insertDesc key x l).Pairwise (fun a b => key b ≤ key a) := by
  induction l with
  | nil => simp [insertDesc]
  | cons y ys ih =>
    rw [List.pairwise_cons] at h
    unfold insertDesc
    split
    · rename_i hlt
      rw [List.pairwise_cons]
      refine ⟨fun z hz => ?_, ih h.2⟩
      rcases List.mem_cons.mp ((perm_insertDesc key x ys).mem_iff.mp hz) with
        hzx | hzy
      · exact hzx ▸ le_of_lt hlt
      · exact h.1 z hzy
    · rename_i hge
      rw [List.pairwise_cons]
      refine ⟨fun z hz => ?_, List.pairwise_cons.mpr h⟩
      rcases List.mem_cons.mp hz with hzy | hzy
      · exact hzy ▸ le_of_not_lt hge
      · exact le_trans (h.1 z hzy) (le_of_not_lt hge)

theorem perm_sortByKeyDesc {α β : Type} [LinearOrder β] (key : α → β)
    (l : List α) : (sortByKeyDesc key l).Perm l := by
  induction l with
  | nil => exact List.Perm.refl _
  | cons x xs ih =>
    exact (perm_insertDesc key x (sortByKeyDesc key xs)).trans (ih.cons x)

theorem sorted_sortByKeyDesc {α β : Type} [LinearOrder β] (key : α → β)
    (l : List α) :
    (sortByKeyDesc key l).Pairwise (fun a b => key b ≤ key a) := by
  induction l with
  | nil => simp [sortByKeyDesc]
  | cons x xs ih => exact sorted_insertDesc key x _ ih

theorem filter_insertDesc_ne {α β : Type} [LinearOrder β] (key : α → β)
    (x : α) (l : List α) (k : β) (hk : key x ≠ k) :
    (insertDesc key x l).filter (fun z => decide (key z = k)) =
      l.filter (fun z => decide (key z = k)) := by
  induction l with
  | nil => simp [insertDesc, hk]
  | cons y ys ih =>
    unfold insertDesc
    split
    · simp only [List.filter_cons, ih]
    · simp [List.filter_cons, hk]

theorem filter_insertDesc_eq {α β : Type} [LinearOrder β] (key : α → β)
    (x : α) (l : List α) (h : l.Pairwise (fun a b => key b ≤ key a)) :
    (insertDesc key x l).filter (fun z => decide (key z = key x)) =
      x :: l.filter (fun z => decide (key z = key x)) := by
  induction l with
  | nil => simp [insertDesc]
  | cons y ys ih =>
    rw [List.pairwise_cons] at h
    unfold insertDesc
    split
    · rename_i hlt
      have hy : ¬ (key y = key x) := by
        intro hEq
        exact absurd hlt (by rw [hEq]; exact lt_irrefl _)
      simp [List.filter_cons, hy, ih h.2]
    · simp [List.filter_cons]

theorem filter_key_sortByKeyDesc {α β : Type} [LinearOrder β] (key : α → β)
    (l : List α) (k : β) :
    (sortByKeyDesc key l).filter (fun z => decide (key z = k)) =
      l.filter (fun z => decide (key z = k)) := by
  induction l with
  | nil => rfl
  | cons x xs ih =>
    show (insertDesc key x (sortByKeyDesc key xs)).filter _ = _
    by_cases hx : key x = k
    · subst hx
      rw [filter_insertDesc_eq key x _ (sorted_sortByKeyDesc key xs)]
      simp [List.filter_cons, ih]
    · rw [filter_insertDesc_ne key x _ k hx]
      simp [List.filter_cons, hx, ih]

/-! ## General lemmas: the capped selection walk -/

theorem selectWalk_sublist {α : Type} (isPre : α → Bool) (ms : Option Nat)
    (ma sc ac : Nat) (l : List α) :
    (selectWalk isPre ms ma sc ac l).Sublist l := by
  induction l generalizing sc ac with
  | nil => simp [selectWalk]
  | cons y rest ih =>
    unfold selectWalk
    split
    · exact List.nil_sublist _
    · split
      · split
        · exact (ih sc ac).cons y
        · exact (ih (sc + 1) (ac + 1)).cons₂ y
      · exact (ih (sc + 1) ac).cons₂ y

theorem length_selectWalk_le_cap {α : Type} (isPre : α → Bool) (m : Nat)
    (ma sc ac : Nat) (l : List α) :
    (selectWalk isPre (some m) ma sc ac l).length ≤ m - sc := by
  induction l generalizing sc ac with
  | nil => simp [selectWalk]
  | cons y rest ih =>
    unfold selectWalk
    split
    · simp
    · rename_i hstop
      simp only [Option.map_some', Option.getD_some, decide_eq_true_eq] at hstop
      split
      · split
        · exact ih sc ac
        · have := ih (sc + 1) (ac + 1)
          simp only [List.length_cons]
          omega
      · have := ih (sc + 1) ac
        simp only [List.length_cons]
        omega

theorem countP_selectWalk_le {α : Type} (isPre : α → Bool) (ms : Option Nat)
    (ma sc ac : Nat) (l : List α) :
    (selectWalk isPre ms ma sc ac l).countP isPre ≤ ma - ac := by
  induction l generalizing sc ac with
  | nil => simp [selectWalk]
  | cons y rest ih =>
    unfold selectWalk
    split
    · simp
    · split
      · split
        · exact ih sc ac
        · rename_i hpre hfull
          rw [List.countP_cons_of_pos _ _ hpre]
          have := ih (sc + 1) (ac + 1)
          omega
      · rename_i hpre
        rw [List.countP_cons_of_neg _ _ (by simp [hpre])]
        exact ih (sc + 1) ac

theorem selectWalk_skips_not_stops {α : Type} (isPre : α → Bool)
    (ms : Option Nat) (ma sc ac : Nat) (y : α) (rest : List α)
    (hstop : (ms.map (fun m => decide (m ≤ sc))).getD false = false)
    (hpre : isPre y = true) (hfull : ma ≤ ac) :
    selectWalk isPre ms ma sc ac (y :: rest) =
      selectWalk isPre ms ma sc ac rest := by
  conv_lhs => unfold selectWalk
  rw [if_neg (by simp [hstop]), if_pos hpre, if_pos hfull]

theorem mem_selectWalk_none {α : Type} (isPre : α → Bool) (ma sc ac : Nat)
    (l : List α) (x : α) (hx : x ∈ l) (hpre : isPre x = false) :
    x ∈ selectWalk isPre none ma sc ac l := by
  induction l generalizing sc ac with
  | nil => cases hx
  | cons y rest ih =>
    unfold selectWalk
    simp only [Option.map_none', Option.getD_none, Bool.false_eq_true, if_false]
    rcases List.mem_cons.mp hx with hxy | hxr
    · subst hxy
      rw [if_neg (by simp [hpre])]
      exact List.mem_cons_self _ _
    · split
      · split
        · exact ih sc ac hxr
        · exact List.mem_cons_of_mem y (ih (sc + 1) (ac + 1) hxr)
      · exact List.mem_cons_of_mem y (ih (sc + 1) ac hxr)

/-! ## General lemmas: replicated inputs -/

theorem filter_replicate_of_pos {α : Type} (p : α → Bool) (n : Nat) (x : α)
    (h : p x = true) : (List.replicate n x).filter p = List.replicate n x := by
  induction n with
  | zero => rfl
  | succ n ih => simp [List.replicate_succ, List.filter_cons, h, ih]

theorem filterMap_replicate_of_some {α γ : Type} (f : α → Option γ) (n : Nat)
    (x : α) (y : γ) (h : f x = some y) :
    (List.replicate n x).filterMap f = List.replicate n y := by
  induction n with
  | zero => rfl
  | succ n ih => simp [List.replicate_succ, List.filterMap_cons, h, ih]

theorem insertDesc_replicate_self {α β : Type} [LinearOrder β] (key : α → β)
    (n : Nat) (x : α) :
    insertDesc key x (List.replicate n x) = List.replicate (n + 1) x := by
  cases n with
  | zero => rfl
  | succ n =>
    rw [List.replicate_succ]
    unfold insertDesc
    rw [if_neg (lt_irrefl (key x))]
    rfl

theorem sortByKeyDesc_replicate {α β : Type} [LinearOrder β] (key : α → β)
    (n : Nat) (x : α) :
    sortByKeyDesc key (List.replicate n x) = List.replicate n x := by
  induction n with
  | zero => rfl
  | succ n ih =>
    rw [List.replicate_succ]
    show insertDesc key x (sortByKeyDesc key (List.replicate n x)) = _
    rw [ih, insertDesc_replicate_self, List.replicate_succ]

theorem selectWalk_none_replicate {α : Type} (isPre : α → Bool) (ma : Nat)
    (n sc ac : Nat) (x : α) (h : isPre x = false) :
    selectWalk isPre none ma sc ac (List.replicate n x) =
      List.replicate n x := by
  induction n generalizing sc ac with
  | zero => rfl
  | succ n ih =>
    rw [List.replicate_succ]
    conv_lhs => unfold selectWalk
    simp only [Option.map_none', Option.getD_none, Bool.false_eq_true, if_false]
    rw [if_neg (by simp [h]), ih]

/-! ## Membership in the analyze_articles pipeline -/

theorem score_ge_60_of_mem_AA_pipeline (cutoff : Nat) (articles : List Article)
    (item : Scored ℚ) (h : item ∈ AA.main_pipeline cutoff articles) :
    60 ≤ (AA.score_article item.article).1 := by
  simp only [AA.main_pipeline] at h
  have h1 := (selectWalk_sublist (fun x : Scored ℚ => AA.is_arxiv x.article)
    none 3 0 0 _).subset h
  have h2 := (perm_sortByKeyDesc (fun x : Scored ℚ => x.score) _).mem_iff.mp h1
  rcases List.mem_filterMap.mp h2 with ⟨a0, _ha0, hf⟩
  split at hf
  · rename_i hs
    cases Option.some.inj hf
    exact hs
  · cases hf

/-! ## Claim C1 -/

/-- A concrete article whose text contains no agent-relevance keyword of
analyze_today.py but matches production, AI and developer vocabulary. -/
def artNoAgent : Article :=
  { title := "production ai code", url := ("https://example.com/p") }

/-- Claim C1 is false as stated: the analyze_today.py scorer has no
agent-relevance gate.  The article titled "production ai code" matches
none of the sixteen agentic keywords, yet scores 65 (production 25 + AI 20
+ developer 10 + non-arXiv 10) and is the sole member of the resulting
Selection. -/
theorem claim_C1_counterexample :
    Today.agentic_matches artNoAgent = 0 ∧
    Today.score_article artNoAgent = 65 ∧
    Today.main_select [artNoAgent] =
      [{ article := artNoAgent, score := 65,
         category := "Production Use Cases" }] :=
  ⟨by decide, by decide, by decide⟩

/-- Claim C1 (amended): the agent-relevance gate holds in the
analyze_articles.py variant only — there, an article matching zero agent
keywords scores 0 and no Selection of that pipeline ever contains it. -/
theorem claim_C1_amended (a : Article) (h : AA.agent_matches a = 0) :
    (AA.score_article a).1 = 0 ∧
    ∀ (cutoff : Nat) (articles : List Article) (item : Scored ℚ),
      item ∈ AA.main_pipeline cutoff articles → item.article ≠ a := by
  have hsc : (AA.score_article a).1 = 0 := by simp [AA.score_article, h]
  refine ⟨hsc, fun cutoff articles item hmem heq => ?_⟩
  have h60 := score_ge_60_of_mem_AA_pipeline cutoff articles item hmem
  rw [heq, hsc] at h60
  norm_num at h60

/-- Witness for C1 (amended) at a concrete agent-free article. -/
theorem claim_C1_witness :
    (AA.score_article { title := "quantum chemistry dataset" }).1 = 0 :=
  (claim_C1_amended { title := "quantum chemistry dataset" } (by decide)).1

/-! ## Claim C2 -/

/-- A concrete arXiv-linked article with exactly one agent-keyword match and
no production match, hitting the arXiv penalty path of analyze_articles.py. -/
def artArxivAgent : Article :=
  { title := "agent", link := some ("https://arxiv.org/abs/2501.00001") }

/-- Claim C2 is false as stated: the analyze_articles.py scorer can return a
non-integer.  On an arXiv paper with one agent keyword and no production
keyword the penalty computes `15 * 0.3 = 4.5` (the CPython float product is
exactly `4.5` as well), whose denominator as a rational is 2, not 1 — so
the returned score is not an integer. -/
theorem claim_C2_counterexample :
    (AA.score_article artArxivAgent).1 = 9 / 2 ∧
    (AA.score_article artArxivAgent).1.den = 2 := by
  have hm : AA.agent_matches artArxivAgent = 1 := by decide
  have hp : AA.production_matches artArxivAgent = 0 := by decide
  have hf : AA.framework_matches artArxivAgent = 0 := by decide
  have hx : AA.is_arxiv artArxivAgent = true := by decide
  have hsc : (AA.score_article artArxivAgent).1 = 9 / 2 := by
    simp [AA.score_article, hm, hp, hf, hx]
    norm_num [min_def]
  exact ⟨hsc, by rw [hsc]; norm_num [Rat.den]⟩

/-- Claim C2 (amended): every scorer variant returns a value in `[0, 100]`
(the analyze_today.py and filter_and_generate.py scores are integers by
construction; the analyze_articles.py score is a rational that the arXiv
penalty can make non-integral). -/
theorem claim_C2_amended (a : Article) :
    (0 ≤ (AA.score_article a).1 ∧ (AA.score_article a).1 ≤ 100) ∧
    (0 ≤ Today.score_article a ∧ Today.score_article a ≤ 100) ∧
    (0 ≤ FG.score_article a ∧ FG.score_article a ≤ 100) := by
  refine ⟨?_, ⟨le_max_left 0 _, max_le (by norm_num) (min_le_left 100 _)⟩,
    ⟨le_max_left 0 _, max_le (by norm_num) (min_le_left 100 _)⟩⟩
  rcases eq_or_ne (AA.agent_matches a) 0 with h | h
  · simp [AA.score_article, h]
  · simp only [AA.score_article, if_neg h]
    constructor
    · split_ifs <;> positivity
    · exact min_le_right _ _

/-! ## Claim C3 -/

/-- A concrete agent-relevant article whose `published` field is the
collector's `"Unknown"` sentinel for entries without a parseable date. -/
def artUnknownDate : Article :=
  { title := "agent workflow planning production deployment enterprise",
    url := ("https://example.com/agents"), published := "Unknown" }

/-- A feed entry for which `parse_published_date` produced no date. -/
def entUnknownDate : Collect.FeedEntry :=
  { title := "agent workflow planning production deployment enterprise",
    link := ("https://example.com/agents"), pubDate := none }

/-- Claim C3 is contradicted by `is_recent` of analyze_articles.py: an
article with an absent (empty) or unparseable `published` value — including
the `"Unknown"` sentinel the collector itself writes for dateless entries,
announcing that they should be reviewed later in digest generation — makes
`fromisoformat` raise, lands in the bare `except:` branch and returns
`False`, so the article is dropped before scoring (the pipeline yields `[]`
even for a strongly agent-relevant article), while `fetch_articles` of
collect_articles.py retains exactly such an entry flagged
`date_verified = False`. -/
theorem claim_C3_fails_closed :
    AA.is_recent ("Unknown") (AA.encDT 2025 6 1 0 0 0) = false ∧
    AA.is_recent ("") (AA.encDT 2025 6 1 0 0 0) = false ∧
    AA.main_pipeline (AA.encDT 2025 6 1 0 0 0) [artUnknownDate] = [] ∧
    Collect.entry_to_article 100 entUnknownDate =
      some { title := "agent workflow planning production deployment enterprise",
             url := "https://example.com/agents", published := "Unknown",
             date_verified := false } :=
  ⟨by decide, by decide, by decide, by decide⟩

/-! ## Claim C4 -/

/-- Claim C4: in every variant's Selection at most 3 arXiv-linked articles
appear, whatever the input; and the walk skips a capped preprint rather
than stopping — a skipped preprint leaves the walk equal to the walk of the
remaining items, and in the uncapped analyze_articles.py walk every
non-preprint item of the input is still selected. -/
theorem claim_C4_preprint_cap (articles : List Article) (cutoff : Nat)
    (l : List (Scored ℚ)) (x : Scored ℚ)
    (hx : x ∈ l) (hpre : AA.is_arxiv x.article = false) :
    (Today.main_select articles).countP
        (fun it => containsStr it.article.url ("arxiv.org")) ≤ 3 ∧
    (FG.main_select articles).countP
        (fun it => containsStr it.article.url ("arxiv.org")) ≤ 3 ∧
    (AA.main_pipeline cutoff articles).countP
        (fun it => AA.is_arxiv it.article) ≤ 3 ∧
    x ∈ selectWalk (fun it : Scored ℚ => AA.is_arxiv it.article) none 3 0 0 l ∧
    ∀ (ms : Option Nat) (ma sc ac : Nat) (y : Scored Int)
      (rest : List (Scored Int)),
      (ms.map (fun m => decide (m ≤ sc))).getD false = false →
      containsStr y.article.url ("arxiv.org") = true → ma ≤ ac →
      selectWalk (fun it : Scored Int => containsStr it.article.url ("arxiv.org"))
          ms ma sc ac (y :: rest) =
        selectWalk (fun it : Scored Int => containsStr it.article.url ("arxiv.org"))
          ms ma sc ac rest := by
  refine ⟨?_, ?_, ?_, mem_selectWalk_none _ 3 0 0 l x hx hpre,
    fun ms ma sc ac y rest h1 h2 h3 =>
      selectWalk_skips_not_stops _ ms ma sc ac y rest h1 h2 h3⟩
  · simp only [Today.main_select]
    simpa using countP_selectWalk_le
      (fun it : Scored Int => containsStr it.article.url ("arxiv.org"))
      (some 12) 3 0 0 _
  · simp only [FG.main_select]
    simpa using countP_selectWalk_le
      (fun it : Scored Int => containsStr it.article.url ("arxiv.org"))
      (some 15) 3 0 0 _
  · simp only [AA.main_pipeline]
    simpa using countP_selectWalk_le
      (fun it : Scored ℚ => AA.is_arxiv it.article) none 3 0 0 _

/-- A non-preprint scored item used by the C4 witness. -/
def itemNonPre : Scored ℚ :=
  { article := artNoAgent, score := 0, category := "Production Use Cases" }

/-- Witness for C4 at a concrete one-item list. -/
theorem claim_C4_witness :
    itemNonPre ∈ selectWalk (fun it : Scored ℚ => AA.is_arxiv it.article)
      none 3 0 0 [itemNonPre] :=
  (claim_C4_preprint_cap [] 0 [itemNonPre] itemNonPre
    (List.mem_singleton.mpr rfl) (by decide)).2.2.2.1

/-! ## Claim C5 -/

/-- A concrete recent, non-preprint article scoring 90 in the
analyze_articles.py scorer. -/
def artRecentHigh : Article :=
  { title := "agent workflow planning production deployment enterprise",
    url := ("https://example.com/agents"),
    published := "2025-06-01T12:00:00Z" }

/-- Claim C5 is false as stated for the analyze_articles.py variant: its
selection walk has no overall maximum, so sixteen identical high-scoring
non-preprint recent articles all survive to the final list, exceeding every
observed `max_selected` (12 in analyze_today.py, 15 in
filter_and_generate.py). -/
theorem claim_C5_counterexample :
    (AA.main_pipeline 0 (List.replicate 16 artRecentHigh)).length = 16 ∧
    15 < (AA.main_pipeline 0 (List.replicate 16 artRecentHigh)).length := by
  have h1 : AA.is_recent artRecentHigh.published 0 = true := by decide
  have hm : AA.agent_matches artRecentHigh = 3 := by decide
  have hp : AA.production_matches artRecentHigh = 3 := by decide
  have hf : AA.framework_matches artRecentHigh = 0 := by decide
  have hx : AA.is_arxiv artRecentHigh = false := by decide
  have hs : (AA.score_article artRecentHigh).1 = 90 := by
    simp [AA.score_article, hm, hp, hf, hx]
    norm_num [min_def]
  have hpipe : (AA.main_pipeline 0 (List.replicate 16 artRecentHigh)).length = 16 := by
    simp only [AA.main_pipeline]
    rw [filter_replicate_of_pos (fun a => AA.is_recent a.published 0) 16
        artRecentHigh h1,
      filterMap_replicate_of_some _ 16 artRecentHigh
        ({ article := artRecentHigh, score := (AA.score_article artRecentHigh).1,
           category := AA.categorize_article artRecentHigh
             (AA.score_article artRecentHigh).1 })
        (by rw [if_pos (by rw [hs]; norm_num)]),
      sortByKeyDesc_replicate,
      selectWalk_none_replicate (fun it : Scored Rat => AA.is_arxiv it.article)
        3 16 0 0
        ({ article := artRecentHigh, score := (AA.score_article artRecentHigh).1,
           category := AA.categorize_article artRecentHigh
             (AA.score_article artRecentHigh).1 })
        (by exact hx), List.length_replicate]
  exact ⟨hpipe, by rw [hpipe]; norm_num⟩

/-- Claim C5 (amended): the analyze_today.py Selection has at most 12
articles and the filter_and_generate.py Selection at most 15; no variant
ever pads — each Selection is no longer than its input — but the
analyze_articles.py variant imposes no overall maximum (only the arXiv
cap), as the counterexample shows. -/
theorem claim_C5_amended (articles : List Article) (cutoff : Nat) :
    (Today.main_select articles).length ≤ 12 ∧
    (FG.main_select articles).length ≤ 15 ∧
    (Today.main_select articles).length ≤ articles.length ∧
    (FG.main_select articles).length ≤ articles.length ∧
    (AA.main_pipeline cutoff articles).length ≤ articles.length := by
  refine ⟨?_, ?_, ?_, ?_, ?_⟩
  · simp only [Today.main_select]
    simpa using length_selectWalk_le_cap
      (fun it : Scored Int => containsStr it.article.url ("arxiv.org"))
      12 3 0 0 _
  · simp only [FG.main_select]
    simpa using length_selectWalk_le_cap
      (fun it : Scored Int => containsStr it.article.url ("arxiv.org"))
      15 3 0 0 _
  · simp only [Today.main_select]
    exact le_trans (le_trans (selectWalk_sublist _ _ _ _ _ _).length_le
      (le_of_eq (perm_sortByKeyDesc _ _).length_eq))
      (List.length_filterMap_le _ _)
  · simp only [FG.main_select]
    exact le_trans (le_trans (selectWalk_sublist _ _ _ _ _ _).length_le
      (le_of_eq (perm_sortByKeyDesc _ _).length_eq))
      (List.length_filterMap_le _ _)
  · simp only [AA.main_pipeline]
    exact le_trans (le_trans (le_trans
      (selectWalk_sublist _ _ _ _ _ _).length_le
      (le_of_eq (perm_sortByKeyDesc _ _).length_eq))
      (List.length_filterMap_le _ _))
      (List.length_filter_le _ _)

/-! ## Claim C6 -/

/-- Claim C6: every variant's Selection is pairwise descending by score;
the sort is a stable permutation (equal-score items keep their input
order, stated as filter-by-score invariance); and the cap walk preserves
the sorted order because its output is a sublist of its input. -/
theorem claim_C6_sorted_selection (articles : List Article) (cutoff : Nat)
    (l : List (Scored Int)) (k : Int) (p : Scored Int → Bool)
    (ms : Option Nat) (ma sc ac : Nat) :
    (Today.main_select articles).Pairwise (fun x y => y.score ≤ x.score) ∧
    (FG.main_select articles).Pairwise (fun x y => y.score ≤ x.score) ∧
    (AA.main_pipeline cutoff articles).Pairwise (fun x y => y.score ≤ x.score) ∧
    (sortByKeyDesc (fun x : Scored Int => x.score) l).Perm l ∧
    (sortByKeyDesc (fun x : Scored Int => x.score) l).filter
        (fun x => decide (x.score = k)) =
      l.filter (fun x => decide (x.score = k)) ∧
    (selectWalk p ms ma sc ac l).Sublist l := by
  refine ⟨?_, ?_, ?_, perm_sortByKeyDesc _ l, filter_key_sortByKeyDesc _ l k,
    selectWalk_sublist p ms ma sc ac l⟩
  · simp only [Today.main_select]
    exact List.Pairwise.sublist (selectWalk_sublist _ _ _ _ _ _)
      (sorted_sortByKeyDesc (fun x : Scored Int => x.score) _)
  · simp only [FG.main_select]
    exact List.Pairwise.sublist (selectWalk_sublist _ _ _ _ _ _)
      (sorted_sortByKeyDesc (fun x : Scored Int => x.score) _)
  · simp only [AA.main_pipeline]
    exact List.Pairwise.sublist (selectWalk_sublist _ _ _ _ _ _)
      (sorted_sortByKeyDesc (fun x : Scored ℚ => x.score) _)

/-! ## Claim C7 -/

/-- A concrete arXiv-linked article whose text matches a framework
indicator but no production indicator. -/
def artArxivFramework : Article :=
  { title := "a new agent framework",
    url := ("https://arxiv.org/abs/2501.01234") }

/-- Claim C7 is false as stated: the analyze_today.py and
filter_and_generate.py categorizers never consult the URL, so an
arXiv-linked article mentioning a framework term is labelled
`Frameworks & Tools` by both. -/
theorem claim_C7_counterexample :
    containsStr artArxivFramework.url ("arxiv.org") = true ∧
    Today.categorize_article artArxivFramework = "Frameworks & Tools" ∧
    FG.categorize_article artArxivFramework = "Frameworks & Tools" :=
  ⟨by decide, by decide, by decide⟩

/-- Claim C7 (amended): only the analyze_articles.py categorizer excludes
preprint-sourced articles from the frameworks/tools bucket — there, an
arXiv-linked article is never labelled `Frameworks & Tools`, whatever its
text and score. -/
theorem claim_C7_amended (a : Article) (s : ℚ) (h : AA.is_arxiv a = true) :
    AA.categorize_article a s ≠ "Frameworks & Tools" := by
  simp only [AA.categorize_article]
  split_ifs with h1 h2 h3 h4
  · decide
  · rw [h] at h2
    simp at h2
  · decide
  · decide
  · decide

/-- Witness for C7 (amended) at the concrete arXiv framework article. -/
theorem claim_C7_witness :
    AA.categorize_article artArxivFramework 0 ≠ "Frameworks & Tools" :=
  claim_C7_amended artArxivFramework 0 (by decide)

/-! ## Claim C8 -/

/-- The closed set of category labels (`category_order` in
analyze_articles.py, lines 183–189). -/
def categories : List String :=
  ["Production Use Cases", "Frameworks & Tools", "Developer Resources",
   "Trends & Analysis", "Research & Breakthroughs"]

/-- Claim C8: each categorizer is total — it always returns one of the five
labels — and the production rule is tested first, so an article matching
both a production and a framework indicator is labelled
`Production Use Cases` in every variant. -/
theorem claim_C8_priority (a : Article) (s : ℚ) :
    AA.categorize_article a s ∈ categories ∧
    Today.categorize_article a ∈ categories ∧
    FG.categorize_article a ∈ categories ∧
    (AA.production_indicator_match a = true →
      AA.framework_indicator_match a = true →
      AA.categorize_article a s = "Production Use Cases") ∧
    (Today.production_indicator_match a = true →
      Today.framework_indicator_match a = true →
      Today.categorize_article a = "Production Use Cases") ∧
    (FG.production_indicator_match a = true →
      FG.framework_indicator_match a = true →
      FG.categorize_article a = "Production Use Cases") := by
  refine ⟨?_, ?_, ?_, fun h _ => ?_, fun h _ => ?_, fun h _ => ?_⟩
  · simp only [AA.categorize_article]
    split_ifs <;> decide
  · simp only [Today.categorize_article]
    split_ifs <;> decide
  · simp only [FG.categorize_article]
    split_ifs <;> decide
  · simp [AA.categorize_article, h]
  · simp [Today.categorize_article, h]
  · simp [FG.categorize_article, h]

/-- An article matching both a production and a framework indicator in all
three vocabularies. -/
def artProdFramework : Article := { title := "production framework" }

/-- Witness for C8 at a concrete production-and-framework article. -/
theorem claim_C8_witness :
    AA.categorize_article artProdFramework 0 = "Production Use Cases" ∧
    Today.categorize_article artProdFramework = "Production Use Cases" ∧
    FG.categorize_article artProdFramework = "Production Use Cases" :=
  ⟨(claim_C8_priority artProdFramework 0).2.2.2.1 (by decide) (by decide),
   (claim_C8_priority artProdFramework 0).2.2.2.2.1 (by decide) (by decide),
   (claim_C8_priority artProdFramework 0).2.2.2.2.2 (by decide) (by decide)⟩

/-! ## Claim C9 -/

/-- A dateless feed entry for the C9 run. -/
def entNoDate : Collect.FeedEntry :=
  { title := "agents everywhere", link := ("https://example.com/nodate"),
    pubDate := none }

/-- A feed entry dated well after the (future) cutoff for the C9 run. -/
def entFuture : Collect.FeedEntry :=
  { title := "agents in production", link := ("https://example.com/future"),
    pubDate := some 120000 }

/-- Claim C9 is contradicted by the code: no variant validates any
configuration value.  Running the collector with `--hours -5` (argparse
accepts any integer) computes a cutoff 18000 seconds in the future of
`now = 0` and proceeds to fetch and filter normally, returning a normal
article list instead of failing at startup; score_threshold, max_selected
and preprint_cap are hard-coded literals nowhere range-checked. -/
theorem claim_C9_no_validation :
    ((0 : Int) < 0 - (-5) * 3600) ∧
    (Collect.collect_articles_run (-5) 0 [entNoDate, entFuture]).map
        (fun r => (r.url, r.date_verified)) =
      [("https://example.com/nodate", false),
       ("https://example.com/future", true)] :=
  ⟨by norm_num, by decide⟩

/-! ## Claim C10 -/

/-- Claim C10: scoring and categorization in every variant depend only on
the `title`, `description`/`summary` and `url`/`link` fields — two
articles agreeing on those five fields get identical scores and
categories regardless of `source`, `tags`, `author` or `published`, and
the analyze_articles.py categorizer is also independent of its unused
score argument. -/
theorem claim_C10_field_independence (a b : Article)
    (ht : a.title = b.title) (hd : a.description = b.description)
    (hsum : a.summary = b.summary) (hu : a.url = b.url)
    (hl : a.link = b.link) :
    Today.score_article a = Today.score_article b ∧
    FG.score_article a = FG.score_article b ∧
    AA.score_article a = AA.score_article b ∧
    Today.categorize_article a = Today.categorize_article b ∧
    FG.categorize_article a = FG.categorize_article b ∧
    ∀ s1 s2 : ℚ, AA.categorize_article a s1 = AA.categorize_article b s2 := by
  have hcT : Today.combined a = Today.combined b := by
    unfold Today.combined
    rw [ht, hd]
  have hcF : FG.combined a = FG.combined b := by
    unfold FG.combined
    rw [ht, hd]
  have hcA : AA.content a = AA.content b := by
    unfold AA.content AA.summaryText
    rw [ht, hsum, hd]
  have hlA : AA.linkOf a = AA.linkOf b := by
    unfold AA.linkOf
    rw [hl, hu]
  refine ⟨?_, ?_, ?_, ?_, ?_, fun s1 s2 => ?_⟩
  · simp only [Today.score_article, Today.agentic_matches, hcT, hu]
  · simp only [FG.score_article, FG.high_value_match, FG.combined, ht, hd, hu]
  · simp only [AA.score_article, AA.agent_matches, AA.production_matches,
      AA.framework_matches, AA.is_arxiv, hcA, hlA]
  · simp only [Today.categorize_article, Today.production_indicator_match,
      Today.framework_indicator_match, hcT]
  · simp only [FG.categorize_article, FG.production_indicator_match,
      FG.framework_indicator_match, hcF]
  · simp only [AA.categorize_article, AA.production_indicator_match,
      AA.framework_indicator_match, AA.is_arxiv, hcA, hlA]

/-- Two articles identical on the text fields but different in source,
author, tags and published date, for the C10 witness. -/
def artMetaA : Article :=
  { title := "agent production framework", source := "Feed One",
    author := "someone", published := "2025-06-01T00:00:00Z",
    tags := ["ai"] }

/-- The `artMetaA` text fields with entirely different metadata. -/
def artMetaB : Article :=
  { title := "agent production framework", source := "Feed Two",
    author := "someone else", published := "Unknown", tags := [] }

/-- Witness for C10 at the concrete metadata-divergent pair. -/
theorem claim_C10_witness :
    Today.score_article artMetaA = Today.score_article artMetaB ∧
    Today.categorize_article artMetaA = Today.categorize_article artMetaB :=
  ⟨(claim_C10_field_independence artMetaA artMetaB rfl rfl rfl rfl rfl).1,
   (claim_C10_field_independence artMetaA artMetaB rfl rfl rfl rfl rfl).2.2.2.1⟩
